import Mathlib

/-!
# Verification of the humannotator annotation session engine

Shallow embedding of the parts of `humannotator` that the audited claims
are about:

* `src/humannotator/data/data.py` — the data-adapter registry
  (`register`, `Data_List`, `Data_Dict`, `Data_DataFrame`, `load_data`);
* `src/humannotator/humannotator.py` — the session controller
  (`Annotator.__call__`, `Annotator.__getstate__`, `Annotator.__setstate__`,
  `Annotator.save` / `Annotator.load`).

The repository's `core/annotations.py` (the ledger object stored in
`self._annotations`) and `interface.py` are not among the audited sources;
the definitions that stand in for them are marked `Modelled from the spec:`
in their doc comment and follow the spec's wording.
-/

namespace Humannotator

/-! ## Data adapters (`src/humannotator/data/data.py`) -/

/-- A pandas `DataFrame` as the tabular adapter sees it: an index of row
labels, a list of column names, and the cell contents.  Row labels and cell
values are modelled as strings.  `.loc[id, cols]` raises `KeyError` exactly
when `id` is absent from the index, independent of the cell contents, so the
`cell` function is total. -/
structure Frame where
  index : List String
  columns : List String
  cell : String → String → String

/-- `Data_DataFrame` (data.py lines 48-64): holds the wrapped frame
(`self.data`) and the configured display columns (`self.item_cols`).
`self.ids` is set in `__init__` to `self.data.index`; see
`Data_DataFrame.ids`. -/
structure Data_DataFrame where
  data : Frame
  item_cols : List String

/-- `Data_DataFrame.__init__` with `id_col=None` (the default path; the
`id_col` branch re-indexes the frame and is not exercised by any claim):
`item_cols` defaults to the frame's columns when not supplied. -/
def mkData_DataFrame (data : Frame) (item_cols : Option (List String)) : Data_DataFrame :=
  { data := data, item_cols := item_cols.getD data.columns }

/-- `self.ids = self.data.index` from `Data_DataFrame.__init__`. -/
def Data_DataFrame.ids (d : Data_DataFrame) : List String :=
  d.data.index

/-- The error taxonomy of spec §7 relevant here: an id absent from the Data
Adapter.  In the code the concrete exception is the `KeyError` raised by
pandas `.loc`. -/
inductive DataError where
  | unknownIdError
deriving DecidableEq, Repr

/-- `Data_DataFrame.__getitem__` (data.py lines 63-64):
`return self.data.loc[id, self.item_cols]`.  Pandas `.loc` raises when the
row label is absent from the index, otherwise returns the row restricted to
`item_cols`. -/
def Data_DataFrame.getitem (d : Data_DataFrame) (x : String) :
    Except DataError (List String) :=
  if x ∈ d.data.index then
    .ok (d.item_cols.map (fun c => d.data.cell x c))
  else
    .error .unknownIdError

/-- The `kind` class attributes the registry is keyed by
(`Sequence`, `Mapping`, `pd.DataFrame`). -/
inductive AdapterKind where
  | sequence
  | mapping
  | dataframe
deriving DecidableEq, Repr

/-- The runtime shapes relevant to `load_data`: a Python list, a dict, a
pandas `DataFrame`, or anything else (a shape matching no registered kind). -/
inductive PyObj where
  | pyList (items : List String)
  | pyDict (entries : List (String × String))
  | pyFrame (df : Frame)
  | pyOther

/-- `isinstance(data, cls.kind)` for the three registered kinds.  A Python
`list` is a `collections.abc.Sequence` and a `dict` is a
`collections.abc.Mapping`; a pandas `DataFrame` is registered with neither
abc, so `isinstance(df, Sequence)` and `isinstance(df, Mapping)` are both
`False`. -/
def isinstanceKind : PyObj → AdapterKind → Bool
  | .pyList _, .sequence => true
  | .pyDict _, .mapping => true
  | .pyFrame _, .dataframe => true
  | _, _ => false

/-- `registry.values()` in the order the `@register` decorators ran (top to
bottom in data.py, and dicts preserve insertion order):
`Data_List` (`Sequence`), then `Data_Dict` (`Mapping`), then
`Data_DataFrame` (`pd.DataFrame`). -/
def registryOrder : List AdapterKind :=
  [.sequence, .mapping, .dataframe]

/-- The constructed adapter objects: `Data_List` has `ids = range(0, len(data))`,
`Data_Dict` has `ids = data.keys()`, `Data_DataFrame` as above. -/
inductive DataObj where
  | list (ids : List Nat) (items : List String)
  | dict (ids : List String) (items : List String)
  | frame (d : Data_DataFrame)

/-- `cls(data)` for the matched registry entry. -/
def constructData : AdapterKind → PyObj → Option DataObj
  | .sequence, .pyList items => some (.list (List.range items.length) items)
  | .mapping, .pyDict entries =>
      some (.dict (entries.map Prod.fst) (entries.map Prod.snd))
  | .dataframe, .pyFrame df => some (.frame (mkData_DataFrame df none))
  | _, _ => none

/-- `load_data` (data.py lines 67-70): iterate the registry values in order,
return `cls(data)` for the first `cls` with `isinstance(data, cls.kind)`;
fall off the loop (returning `None`) when nothing matches. -/
def load_data (data : PyObj) : Option DataObj :=
  match registryOrder.find? (fun k => isinstanceKind data k) with
  | some k => constructData k data
  | none => none

/-! ## The ledger (`self._annotations`) -/

/-- Modelled from the spec: `core/annotations.py` is not among the audited
sources.  Per spec §4.2 the ledger is "a table keyed by item identifier, one
column per task"; `self.annotations.data` is that table and
`self.annotations.data.index` its row keys.  `tasks` is the ordered task-name
sequence, `rows` the committed rows in insertion order. -/
structure Ledger (α : Type) where
  tasks : List String
  rows : List (α × List (Option String))
deriving DecidableEq

/-- `self.annotations.data.index`: the ids having a committed row. -/
def Ledger.index {α : Type} (l : Ledger α) : List α :=
  l.rows.map Prod.fst

/-! ## The session controller (`src/humannotator/humannotator.py`) -/

/-- The instance dict of an `Annotator`.  `ledger` embeds `self._annotations`
(only its row keys and tasks matter to the claims); `dataIds` embeds
`self._data` through the one part `__call__` reads, its `ids` (`none` is
`self._data is None`).  `idsCur` and `iCur` embed `self.ids` and `self.i`,
the attributes `__call__` assigns; `none` means the attribute has never been
set (the key is absent from `__dict__`). -/
structure Annotator (α : Type) where
  user : Option String
  name : String
  ledger : Ledger α
  dataIds : Option (List α)
  save_data : Bool
  idsCur : Option (List α)
  iCur : Option Nat
deriving DecidableEq

/-- Truthiness of the `user` argument in `if user:`: `None` and the empty
string are falsy, any other string is truthy. -/
def truthy : Option String → Bool
  | none => false
  | some s => s != ""

/-- The work list computed at humannotator.py lines 133-140: with
`redo=False`, `self.ids = [id for id in ids if id not in
self.annotations.data.index]`; with `redo=True`, `self.ids = ids`. -/
def worklist {α : Type} [DecidableEq α] (l : Ledger α) (ids : List α)
    (redo : Bool) : List α :=
  if !redo then ids.filter (fun x => decide (x ∉ l.index)) else ids

/-- The presentation loop (humannotator.py lines 143-147): each work-list id
in turn is passed to `interface(id)`; afterwards, if `interface.active` is
false the loop breaks.  `active x` is whether the interface is still active
after presenting `x`.  The result is the list of ids actually passed to the
interface. -/
def presentLoop {α : Type} (active : α → Bool) : List α → List α
  | [] => []
  | x :: xs => x :: (if active x then presentLoop active xs else [])

/-- Result of `Annotator.__call__`: the updated instance, and the ids that
were passed to the interface (`none` when the call returned `None` before
constructing an interface, i.e. when no data was attached). -/
structure CallResult (α : Type) where
  state : Annotator α
  presented : Option (List α)

/-- `Annotator.__call__` (humannotator.py lines 109-147):
1. `if user: self.user = user`;
2. `if self.data is None: return None`;
3. resolve `ids` (`self.data.ids` when `None`);
4. compute `self.ids` per `worklist`;
5. loop: `self.i = i; interface(id); if not interface.active: break`.
`self.i` ends at the position of the last presented id; it is untouched when
the work list is empty (the loop body never runs). -/
def callAnnotator {α : Type} [DecidableEq α] (a : Annotator α)
    (ids : Option (List α)) (user : Option String) (redo : Bool)
    (active : α → Bool) : CallResult α :=
  let a1 := if truthy user then { a with user := user } else a
  match a1.dataIds with
  | none => ⟨a1, none⟩
  | some dids =>
    let ids := ids.getD dids
    let w := worklist a1.ledger ids redo
    let pres := presentLoop active w
    ⟨{ a1 with
        idsCur := some w,
        iCur := if pres.length = 0 then a1.iCur else some (pres.length - 1) },
      some pres⟩

/-! ## Persistence (`__getstate__` / `__setstate__`, `save` / `load`) -/

/-- The dict produced by `__getstate__`.  `dataField = none` means the key
`_data` was deleted from the copied dict; `some d` means it is present with
value `d`. -/
structure PickleState (α : Type) where
  user : Option String
  name : String
  ledger : Ledger α
  dataField : Option (Option (List α))
  save_data : Bool
  idsCur : Option (List α)
  iCur : Option Nat
deriving DecidableEq

/-- `Annotator.__getstate__` (humannotator.py lines 149-153):
`state = self.__dict__.copy(); if not self.save_data: del state['_data']`.
Every attribute other than `_data` is copied unconditionally. -/
def getstate {α : Type} (a : Annotator α) : PickleState α :=
  { user := a.user
    name := a.name
    ledger := a.ledger
    dataField := if a.save_data then some a.dataIds else none
    save_data := a.save_data
    idsCur := a.idsCur
    iCur := a.iCur }

/-- `Annotator.__setstate__` (humannotator.py lines 155-158): when `_data`
is absent from the state it is set to `None`; then the dict is installed. -/
def setstate {α : Type} (s : PickleState α) : Annotator α :=
  { user := s.user
    name := s.name
    ledger := s.ledger
    dataIds := s.dataField.getD none
    save_data := s.save_data
    idsCur := s.idsCur
    iCur := s.iCur }

/-- `Annotator.load(filename)` after `Annotator.save(filename)`
(humannotator.py lines 208-219): pickling an object serializes
`__getstate__()` and unpickling applies `__setstate__`, so the round trip is
`setstate ∘ getstate`. -/
def saveLoad {α : Type} (a : Annotator α) : Annotator α :=
  setstate (getstate a)

/-! ## The run as the spec's renderer contract sees it -/

/-- Modelled from the spec: `interface.py` is not among the audited sources.
Spec §4.3 step 5: for each work-list id the controller requests
"presentation+answer from the injected renderer for `(id, fields=data.fields(id), ...)`",
so presenting an id performs the adapter lookup, and a lookup failure
surfaces to the caller of the run.  `runFrame` performs the lookups for a
work list over a tabular adapter in order and propagates the first
failure. -/
def runFrame (d : Data_DataFrame) : List String → Except DataError Unit
  | [] => .ok ()
  | x :: xs =>
    match d.getitem x with
    | .error e => .error e
    | .ok _ => runFrame d xs

/-! ## Concrete sessions used to instantiate the theorems -/

/-- A ledger over integer ids with one task and one committed row (id 0). -/
def exLedger : Ledger Nat :=
  ⟨["flag"], [(0, [some "1"])]⟩

/-- A session over integer ids 0,1,2 whose ledger already holds id 0. -/
def exAnn : Annotator Nat :=
  ⟨none, "HUMANNOTATOR", exLedger, some [0, 1, 2], false, none, none⟩

/-- A session with data attached, an empty ledger, and no cursor set yet. -/
def exFresh : Annotator Nat :=
  ⟨none, "HUMANNOTATOR", ⟨["flag"], []⟩, some [0, 1], false, none, none⟩

/-- A session with no data attached and a stored user. -/
def exNoData : Annotator Nat :=
  ⟨some "bob", "HUMANNOTATOR", ⟨["flag"], []⟩, none, false, none, none⟩

/-- A one-row frame whose only row label is "a". -/
def exFrame : Frame :=
  ⟨["a"], ["title"], fun _ _ => ""⟩

/-- The tabular adapter over `exFrame`. -/
def exTab : Data_DataFrame :=
  ⟨exFrame, ["title"]⟩

/-- A session over string ids whose data is `exTab` and whose ledger already
holds the id "x" — an id absent from the adapter. -/
def exAnnStale : Annotator String :=
  ⟨none, "HUMANNOTATOR", ⟨["flag"], [("x", [some "1"])]⟩, some exTab.ids, false, none, none⟩

/-- A session over string ids whose data is `exTab` and whose ledger is
empty. -/
def exAnnEmpty : Annotator String :=
  ⟨none, "HUMANNOTATOR", ⟨["flag"], []⟩, some exTab.ids, false, none, none⟩

/-! ## Helper lemmas -/

/-- Membership in the `redo=False` work list: kept iff requested and not in
the ledger index. -/
theorem mem_worklist_false {α : Type} [DecidableEq α] (l : Ledger α)
    (ids : List α) (x : α) :
    x ∈ worklist l ids false ↔ (x ∈ ids ∧ x ∉ l.index) := by
  simp [worklist, List.mem_filter]

/-- The `redo=False` work list is a sublist (order-preserving selection) of
the requested ids. -/
theorem worklist_false_sublist {α : Type} [DecidableEq α] (l : Ledger α)
    (ids : List α) : (worklist l ids false).Sublist ids := by
  simp [worklist]

/-- With `redo=True` the work list is the requested list itself. -/
theorem worklist_true {α : Type} [DecidableEq α] (l : Ledger α)
    (ids : List α) : worklist l ids true = ids := by
  simp [worklist]

/-- Every id the loop presents comes from the work list. -/
theorem presentLoop_subset {α : Type} (active : α → Bool) {l : List α}
    {y : α} (hy : y ∈ presentLoop active l) : y ∈ l := by
  induction l with
  | nil => simp [presentLoop] at hy
  | cons x xs ih =>
    simp only [presentLoop] at hy
    rcases List.mem_cons.mp hy with h | h
    · exact h ▸ List.mem_cons_self x xs
    · by_cases hx : active x = true
      · rw [if_pos hx] at h
        exact List.mem_cons_of_mem _ (ih h)
      · rw [if_neg hx] at h
        simp at h

/-- When the interface never deactivates, the loop presents the whole work
list. -/
theorem presentLoop_of_always_active {α : Type} (l : List α) :
    presentLoop (fun _ => true) l = l := by
  induction l with
  | nil => rfl
  | cons x xs ih => simp [presentLoop, ih]

/-- A work list containing an id absent from the frame's index makes the run
fail with the unknown-id error. -/
theorem runFrame_error_of_mem (d : Data_DataFrame) {w : List String}
    {x : String} (hxw : x ∈ w) (hxi : x ∉ d.data.index) :
    runFrame d w = .error .unknownIdError := by
  induction w with
  | nil => simp at hxw
  | cons y ys ih =>
    rcases List.mem_cons.mp hxw with h | h
    · subst h
      simp [runFrame, Data_DataFrame.getitem, hxi]
    · simp only [runFrame]
      rcases hg : d.getitem y with e | fs
      · cases e
        rfl
      · exact ih h

/-- Shape of `__call__` when data is attached: the user is resolved, the
work list is computed and stored in `self.ids`, and the presented ids are
the loop over it. -/
theorem callAnnotator_eq_some {α : Type} [DecidableEq α] (a : Annotator α)
    (ids : Option (List α)) (user : Option String) (redo : Bool)
    (active : α → Bool) (d : List α) (hd : a.dataIds = some d) :
    callAnnotator a ids user redo active =
      ⟨{ user := if truthy user then user else a.user
         name := a.name
         ledger := a.ledger
         dataIds := a.dataIds
         save_data := a.save_data
         idsCur := some (worklist a.ledger (ids.getD d) redo)
         iCur :=
           if (presentLoop active (worklist a.ledger (ids.getD d) redo)).length = 0
           then a.iCur
           else some ((presentLoop active (worklist a.ledger (ids.getD d) redo)).length - 1) },
        some (presentLoop active (worklist a.ledger (ids.getD d) redo))⟩ := by
  unfold callAnnotator
  cases h : truthy user <;> simp [h, hd]

/-! ## The claims -/

/-- C1: for every session and every id `x` already in the annotation ledger
(`x ∈ annotations.data.index`), calling the annotator with `redo=False`
never presents `x`: `x` is excluded from the computed work list `self.ids`
and is never passed to the interface. -/
theorem c1_redo_false_never_presents_ledger_id {α : Type} [DecidableEq α]
    (a : Annotator α) (ids : Option (List α)) (user : Option String)
    (active : α → Bool) (d : List α) (x : α)
    (hd : a.dataIds = some d) (hx : x ∈ a.ledger.index) :
    x ∉ ((callAnnotator a ids user false active).state.idsCur.getD []) ∧
    x ∉ ((callAnnotator a ids user false active).presented.getD []) := by
  rw [callAnnotator_eq_some a ids user false active d hd]
  constructor
  · intro hmem
    simp only [Option.getD_some] at hmem
    exact (mem_worklist_false a.ledger (ids.getD d) x |>.mp hmem).2 hx
  · intro hmem
    simp only [Option.getD_some] at hmem
    exact (mem_worklist_false a.ledger (ids.getD d) x |>.mp
      (presentLoop_subset active hmem)).2 hx

/-- Witness for C1 at a concrete session: id 0 is in the ledger of `exAnn`,
data is attached, and a `redo=False` call neither lists nor presents 0. -/
theorem c1_witness :
    exAnn.dataIds = some [0, 1, 2] ∧ 0 ∈ exAnn.ledger.index ∧
    (0 ∉ ((callAnnotator exAnn none none false (fun _ => true)).state.idsCur.getD []) ∧
     0 ∉ ((callAnnotator exAnn none none false (fun _ => true)).presented.getD [])) :=
  ⟨rfl, by decide,
    c1_redo_false_never_presents_ledger_id exAnn none none (fun _ => true)
      [0, 1, 2] 0 rfl (by decide)⟩

/-- C2: with data attached, a `redo=True` call puts every requested id (the
`ids` argument, or all Data Adapter ids when it is `None`) on the work list
regardless of the ledger, and — when the interface stays active — presents
every one of them. -/
theorem c2_redo_true_presents_all {α : Type} [DecidableEq α]
    (a : Annotator α) (ids : Option (List α)) (user : Option String)
    (active : α → Bool) (d : List α)
    (hd : a.dataIds = some d) (hact : active = fun _ => true) :
    (callAnnotator a ids user true active).state.idsCur = some (ids.getD d) ∧
    (callAnnotator a ids user true active).presented = some (ids.getD d) := by
  rw [callAnnotator_eq_some a ids user true active d hd]
  subst hact
  constructor
  · simp [worklist_true]
  · simp [worklist_true, presentLoop_of_always_active]

/-- Witness for C2 at a concrete session: id 0 is already in the ledger of
`exAnn`, yet `redo=True` lists and presents all of 0, 1, 2. -/
theorem c2_witness :
    exAnn.dataIds = some [0, 1, 2] ∧
    ((fun _ : Nat => true) = fun _ => true) ∧
    ((callAnnotator exAnn none none true (fun _ => true)).state.idsCur = some [0, 1, 2] ∧
     (callAnnotator exAnn none none true (fun _ => true)).presented = some [0, 1, 2]) :=
  ⟨rfl, rfl,
    c2_redo_true_presents_all exAnn none none (fun _ => true) [0, 1, 2] rfl rfl⟩

/-- C3: saving a session and loading the snapshot yields a session whose
ledger rows and tasks are exactly the original's, for any session state
(hence for any sequence of prior commits). -/
theorem c3_save_load_round_trip {α : Type} (a : Annotator α) :
    (saveLoad a).ledger.tasks = a.ledger.tasks ∧
    (saveLoad a).ledger.rows = a.ledger.rows :=
  ⟨rfl, rfl⟩

/-- C8: the `redo=False` work list stored in `self.ids` is an
order-preserving selection (sublist) of the requested ids, containing
exactly those not present in the ledger index. -/
theorem c8_filter_preserves_order {α : Type} [DecidableEq α]
    (a : Annotator α) (ids : Option (List α)) (user : Option String)
    (active : α → Bool) (d : List α) (hd : a.dataIds = some d) :
    ((callAnnotator a ids user false active).state.idsCur.getD []).Sublist (ids.getD d) ∧
    ∀ x, x ∈ ((callAnnotator a ids user false active).state.idsCur.getD []) ↔
      (x ∈ ids.getD d ∧ x ∉ a.ledger.index) := by
  rw [callAnnotator_eq_some a ids user false active d hd]
  constructor
  · simpa using worklist_false_sublist a.ledger (ids.getD d)
  · intro x
    simpa using mem_worklist_false a.ledger (ids.getD d) x

/-- Witness for C8 at a concrete session: over requested ids 0, 1, 2 with id
0 in the ledger, the work list is a sublist of the request and id 1 is kept
exactly because it is requested and unannotated. -/
theorem c8_witness :
    exAnn.dataIds = some [0, 1, 2] ∧
    ((callAnnotator exAnn none none false (fun _ => true)).state.idsCur.getD []).Sublist [0, 1, 2] ∧
    (1 ∈ ((callAnnotator exAnn none none false (fun _ => true)).state.idsCur.getD []) ↔
      (1 ∈ [0, 1, 2] ∧ 1 ∉ exAnn.ledger.index)) :=
  ⟨rfl,
    (c8_filter_preserves_order exAnn none none (fun _ => true) [0, 1, 2] rfl).1,
    (c8_filter_preserves_order exAnn none none (fun _ => true) [0, 1, 2] rfl).2 1⟩

/-- C9: a truthy `user` argument replaces the stored user (also when no data
is attached and the call otherwise no-ops); a falsy one (`None` or the empty
string) leaves it unchanged. -/
theorem c9_user_replacement {α : Type} [DecidableEq α] (a : Annotator α)
    (ids : Option (List α)) (user : Option String) (redo : Bool)
    (active : α → Bool) :
    (callAnnotator a ids user redo active).state.user =
      (if truthy user then user else a.user) ∧
    truthy none = false ∧ truthy (some "") = false := by
  refine ⟨?_, rfl, rfl⟩
  unfold callAnnotator
  cases h : truthy user <;> cases hD : a.dataIds <;> simp [h, hD]

/-- C10: an input whose shape matches none of the registered kinds makes
`load_data` fall off the registry loop and return `None` (no exception). -/
theorem c10_no_match_returns_none (data : PyObj)
    (h1 : isinstanceKind data .sequence = false)
    (h2 : isinstanceKind data .mapping = false)
    (h3 : isinstanceKind data .dataframe = false) :
    load_data data = none := by
  unfold load_data registryOrder
  simp [List.find?, h1, h2, h3]

/-- Witness for C10 at a concrete input: `pyOther` matches no registered
kind and `load_data` returns `None` on it. -/
theorem c10_witness :
    isinstanceKind .pyOther .sequence = false ∧
    isinstanceKind .pyOther .mapping = false ∧
    isinstanceKind .pyOther .dataframe = false ∧
    load_data .pyOther = none :=
  ⟨rfl, rfl, rfl, c10_no_match_returns_none .pyOther rfl rfl rfl⟩

/-- C4 counterexample: the claim says the saved state excludes the cursor.
On `exFresh` (empty ledger, data ids 0 and 1), after a call `__getstate__`
copies `self.ids` and `self.i` into the snapshot: the snapshot holds the
cursor (`idsCur = some [0, 1]`, `iCur = some 1`), not `none`. -/
theorem c4_counterexample :
    (getstate (callAnnotator exFresh none none false (fun _ => true)).state).idsCur ≠ none ∧
    (getstate (callAnnotator exFresh none none false (fun _ => true)).state).iCur ≠ none := by
  decide

/-- C4 amended: `__getstate__` copies every attribute except `_data`, so a
snapshot taken after a call retains the cursor (`self.ids` holds the
computed work list, `self.i` is copied as is); only the data payload is
excluded when `save_data` is false. -/
theorem c4_amended_snapshot_keeps_cursor {α : Type} [DecidableEq α]
    (a : Annotator α) (ids : Option (List α)) (user : Option String)
    (redo : Bool) (active : α → Bool) (d : List α)
    (hd : a.dataIds = some d) :
    (getstate (callAnnotator a ids user redo active).state).idsCur =
      some (worklist a.ledger (ids.getD d) redo) ∧
    (getstate (callAnnotator a ids user redo active).state).iCur =
      (callAnnotator a ids user redo active).state.iCur ∧
    (getstate (callAnnotator a ids user redo active).state).dataField =
      (if a.save_data then some a.dataIds else none) := by
  rw [callAnnotator_eq_some a ids user redo active d hd]
  exact ⟨rfl, rfl, rfl⟩

/-- Witness for the amended C4 at a concrete session. -/
theorem c4_amended_witness :
    exFresh.dataIds = some [0, 1] ∧
    ((getstate (callAnnotator exFresh none none false (fun _ => true)).state).idsCur =
       some (worklist exFresh.ledger [0, 1] false) ∧
     (getstate (callAnnotator exFresh none none false (fun _ => true)).state).iCur =
       (callAnnotator exFresh none none false (fun _ => true)).state.iCur ∧
     (getstate (callAnnotator exFresh none none false (fun _ => true)).state).dataField =
       (if exFresh.save_data then some exFresh.dataIds else none)) :=
  ⟨rfl,
    c4_amended_snapshot_keeps_cursor exFresh none none false (fun _ => true) [0, 1] rfl⟩

/-- C5 counterexample: the claim says the tabular variant is checked before
the sequence and mapping variants.  In the registry's iteration order the
`pd.DataFrame` entry comes after both. -/
theorem c5_counterexample :
    ¬ (registryOrder.indexOf AdapterKind.dataframe < registryOrder.indexOf AdapterKind.sequence ∧
       registryOrder.indexOf AdapterKind.dataframe < registryOrder.indexOf AdapterKind.mapping) := by
  decide

/-- C5 amended: the registered variants are checked in registration order —
sequence, then mapping, then tabular, so the tabular variant is checked
last; a DataFrame input nevertheless selects the tabular variant, because a
DataFrame is an instance of neither the Sequence nor the Mapping abc, so
the first (and only) structural match is the tabular one. -/
theorem c5_amended_tabular_checked_last_still_wins :
    registryOrder = [AdapterKind.sequence, AdapterKind.mapping, AdapterKind.dataframe] ∧
    ∀ df : Frame,
      isinstanceKind (.pyFrame df) .sequence = false ∧
      isinstanceKind (.pyFrame df) .mapping = false ∧
      load_data (.pyFrame df) = some (.frame (mkData_DataFrame df none)) :=
  ⟨rfl, fun _ => ⟨rfl, rfl, rfl⟩⟩

/-- C6 counterexample: the claim says an explicitly supplied id absent from
the Data Adapter always fails the run.  On `exAnnStale` the id "x" is absent
from the adapter but present in the ledger, so the `redo=False` filter drops
it: the work list is empty, "x" is never presented, and the run over the
presented ids succeeds instead of failing. -/
theorem c6_counterexample :
    "x" ∉ exTab.ids ∧
    (callAnnotator exAnnStale (some ["x"]) none false (fun _ => true)).state.idsCur =
      some [] ∧
    (callAnnotator exAnnStale (some ["x"]) none false (fun _ => true)).presented =
      some [] ∧
    runFrame exTab
      ((callAnnotator exAnnStale (some ["x"]) none false (fun _ => true)).presented.getD []) =
      .ok () :=
  ⟨by decide, by decide, by decide, rfl⟩

/-- C6 amended: looking up an id absent from a tabular adapter fails with
the unknown-id error; and an explicitly supplied id absent from the adapter
fails the run rather than being dropped, provided it is not already in the
ledger (an absent id that is in the ledger is filtered out by the
`redo=False` skip logic and silently dropped). -/
theorem c6_amended_unknown_id_fails (dd : Data_DataFrame)
    (a : Annotator String) (ids : List String) (user : Option String)
    (active : String → Bool) (x : String)
    (hd : a.dataIds = some dd.ids) (hx : x ∉ dd.ids) (hmem : x ∈ ids)
    (hnl : x ∉ a.ledger.index) :
    dd.getitem x = .error .unknownIdError ∧
    x ∈ ((callAnnotator a (some ids) user false active).state.idsCur.getD []) ∧
    runFrame dd ((callAnnotator a (some ids) user false active).state.idsCur.getD []) =
      .error .unknownIdError := by
  unfold Data_DataFrame.ids at hx
  refine ⟨?_, ?_, ?_⟩
  · simp [Data_DataFrame.getitem, hx]
  · rw [callAnnotator_eq_some a (some ids) user false active dd.ids hd]
    simp only [Option.getD_some]
    exact (mem_worklist_false a.ledger ids x).mpr ⟨hmem, hnl⟩
  · rw [callAnnotator_eq_some a (some ids) user false active dd.ids hd]
    simp only [Option.getD_some]
    exact runFrame_error_of_mem dd
      ((mem_worklist_false a.ledger ids x).mpr ⟨hmem, hnl⟩) hx

/-- Witness for the amended C6 at a concrete session: "x" is absent from
`exTab` and from the empty ledger, is explicitly requested, stays on the
work list, and the run fails with the unknown-id error. -/
theorem c6_amended_witness :
    exAnnEmpty.dataIds = some exTab.ids ∧
    "x" ∉ exTab.ids ∧ "x" ∈ ["x"] ∧ "x" ∉ exAnnEmpty.ledger.index ∧
    (exTab.getitem "x" = .error .unknownIdError ∧
     "x" ∈ ((callAnnotator exAnnEmpty (some ["x"]) none false (fun _ => true)).state.idsCur.getD []) ∧
     runFrame exTab
       ((callAnnotator exAnnEmpty (some ["x"]) none false (fun _ => true)).state.idsCur.getD []) =
       .error .unknownIdError) :=
  ⟨rfl, by decide, by decide, by decide,
    c6_amended_unknown_id_fails exTab exAnnEmpty ["x"] none
      (fun _ => true) "x" rfl (by decide) (by decide) (by decide)⟩

/-- C7 counterexample: the claim says a call on a session with no data
attached leaves the session unchanged.  On `exNoData` (stored user "bob"),
a call passing user "alice" changes the stored user, so the resulting state
differs from the original. -/
theorem c7_counterexample :
    (callAnnotator exNoData none (some "alice") false (fun _ => true)).state ≠ exNoData := by
  decide

/-- C7 amended: with no data attached the call presents nothing and returns
before computing a work list; the session is left unchanged except that a
truthy `user` argument replaces the stored user (which happens before the
data check). -/
theorem c7_amended_no_data_no_op {α : Type} [DecidableEq α]
    (a : Annotator α) (ids : Option (List α)) (user : Option String)
    (redo : Bool) (active : α → Bool) (hnd : a.dataIds = none) :
    (callAnnotator a ids user redo active).presented = none ∧
    (callAnnotator a ids user redo active).state =
      (if truthy user then { a with user := user } else a) := by
  unfold callAnnotator
  cases h : truthy user <;> simp [h, hnd]

/-- Witness for the amended C7 at a concrete session with no data. -/
theorem c7_amended_witness :
    exNoData.dataIds = none ∧
    ((callAnnotator exNoData none (some "alice") false (fun _ => true)).presented = none ∧
     (callAnnotator exNoData none (some "alice") false (fun _ => true)).state =
       (if truthy (some "alice") then { exNoData with user := some "alice" } else exNoData)) :=
  ⟨rfl,
    c7_amended_no_data_no_op exNoData none (some "alice") false (fun _ => true) rfl⟩

end Humannotator
